import Mathlib

/-!
Shallow embedding of `submit.py`, a command-line utility that reads a text
file, optionally prepends the contents of a co-located `prompt.txt`, and
pipes the result to a platform-specific clipboard command.

The embedding models a run of the program as a list of observable events
(file opens, external tool launches with their piped input, stdout and
stderr lines) together with the final exit code.  File-system contents and
the availability of the external commands are inputs of the model.
-/

namespace Submit

/-- Result of attempting to open and read a file, mirroring the Python
exceptions handled by `read_file`: `ok` is a successful read, `notFound` is
`FileNotFoundError`, `permissionDenied` is `PermissionError`, and
`otherError` is any other exception carrying its message. -/
inductive ReadResult where
  | ok (content : String)
  | notFound
  | permissionDenied
  | otherError (msg : String)
deriving DecidableEq

/-- The file system visible to the program: what opening each path yields. -/
def FileSystem : Type := String → ReadResult

/-- Outcome of launching an external command with `subprocess.Popen`:
`missing` is a `FileNotFoundError`, `runs code` means the process started
and exited with status `code`, and `raisesOther msg` is any other exception
raised while launching or communicating. -/
inductive ToolStatus where
  | missing
  | runs (code : Nat)
  | raisesOther (msg : String)
deriving DecidableEq

/-- The process environment: the value of `platform.system()`, the launch
status of each external command, the current working directory, and the
script path `__file__`. -/
structure Env where
  system : String
  tool : String → ToolStatus
  cwd : String
  scriptFile : String

/-- Observable events of a run, in program order. -/
inductive Event where
  | openFile (path : String)
  | runTool (cmd : List String) (input : String)
  | outLine (s : String)
  | errLine (s : String)
deriving DecidableEq

/-- The observable outcome of one invocation: its events and exit code. -/
structure RunResult where
  events : List Event
  exitCode : Nat
deriving DecidableEq

/-- Whether a character list starts with a slash. -/
def startsWithSlash : List Char → Bool
  | '/' :: _ => true
  | _ => false

/-- Whether a character list ends with a slash. -/
def endsWithSlash (p : List Char) : Bool :=
  match p.getLast? with
  | some '/' => true
  | _ => false

/-- `posixpath.isabs`. -/
def isabs (p : String) : Bool := startsWithSlash p.data

/-- `posixpath.join` on two components. -/
def joinPath (a b : String) : String :=
  if isabs b then b
  else if a = "" ∨ endsWithSlash a.data then a ++ b
  else a ++ "/" ++ b

/-- `p.split(sep)` for `sep = "/"`, on character lists. -/
def splitOnSlash : List Char → List (List Char)
  | [] => [[]]
  | c :: rest =>
    let r := splitOnSlash rest
    if c = '/' then [] :: r
    else
      match r with
      | [] => [[c]]
      | h :: t => (c :: h) :: t

/-- `sep.join(comps)` for `sep = "/"`, on character lists. -/
def joinComps : List (List Char) → List Char
  | [] => []
  | [x] => x
  | x :: xs => x ++ '/' :: joinComps xs

/-- `posixpath.normpath`. -/
def normpath (p : String) : String :=
  if p = "" then "."
  else
    let cs := p.data
    let initialSlashes : Nat :=
      match cs with
      | '/' :: '/' :: '/' :: _ => 1
      | '/' :: '/' :: _ => 2
      | '/' :: _ => 1
      | _ => 0
    let comps := splitOnSlash cs
    let newComps : List (List Char) := comps.foldl (fun acc comp =>
      if comp = [] ∨ comp = ['.'] then acc
      else if comp ≠ ['.', '.'] ∨ (initialSlashes = 0 ∧ acc = []) ∨
          acc.getLast? = some ['.', '.'] then
        acc ++ [comp]
      else acc.dropLast) []
    let full := List.replicate initialSlashes '/' ++ joinComps newComps
    if full = [] then "." else String.mk full

/-- Prefix of a character list up to and including its last slash
(the slice `p[:i]` with `i = p.rfind(sep) + 1` in `posixpath.dirname`). -/
def takeToLastSlash : List Char → List Char
  | [] => []
  | c :: rest =>
    if rest.contains '/' then c :: takeToLastSlash rest
    else if c = '/' then [c] else []

/-- `posixpath.dirname`. -/
def dirname (p : String) : String :=
  let head := takeToLastSlash p.data
  if head ≠ [] ∧ head.all (fun c => c == '/') = false then
    String.mk ((head.reverse.dropWhile (fun c => c == '/')).reverse)
  else String.mk head

/-- `posixpath.abspath`, with the current working directory passed
explicitly in place of `os.getcwd()`. -/
def abspath (cwd p : String) : String :=
  if isabs p then normpath p else normpath (joinPath cwd p)

/-- The message of a Python `FileNotFoundError` raised by `Popen` for a
missing command, as interpolated into the diagnostic. -/
def fnfDetail (cmd : String) : String :=
  "[Errno 2] No such file or directory: \x27" ++ cmd ++ "\x27"

/-- `copy_to_clipboard` from `submit.py`: dispatch on `platform.system()`,
launch the platform clipboard command and pipe `text` to it; on Linux try
`xclip` first and fall back to `xsel` when `xclip` raises
`FileNotFoundError`.  Returns the emitted events and `some code` when the
function calls `sys.exit(code)`, `none` when it returns normally.  Note the
source never inspects the spawned process's exit status. -/
def copy_to_clipboard (env : Env) (text : String) : List Event × Option Nat :=
  if env.system = "Darwin" then
    match env.tool "pbcopy" with
    | .runs _ => ([.runTool ["pbcopy"] text], none)
    | .missing =>
        ([.errLine ("Error: Required clipboard utility not found. " ++ fnfDetail "pbcopy")],
          some 1)
    | .raisesOther m => ([.errLine ("Error copying to clipboard: " ++ m)], some 1)
  else if env.system = "Linux" then
    match env.tool "xclip" with
    | .runs _ => ([.runTool ["xclip", "-selection", "clipboard"] text], none)
    | .raisesOther m => ([.errLine ("Error copying to clipboard: " ++ m)], some 1)
    | .missing =>
        match env.tool "xsel" with
        | .runs _ => ([.runTool ["xsel", "--clipboard", "--input"] text], none)
        | .missing =>
            ([.errLine ("Error: Required clipboard utility not found. " ++ fnfDetail "xsel")],
              some 1)
        | .raisesOther m => ([.errLine ("Error copying to clipboard: " ++ m)], some 1)
  else if env.system = "Windows" then
    match env.tool "clip" with
    | .runs _ => ([.runTool ["clip"] text], none)
    | .missing =>
        ([.errLine ("Error: Required clipboard utility not found. " ++ fnfDetail "clip")],
          some 1)
    | .raisesOther m => ([.errLine ("Error copying to clipboard: " ++ m)], some 1)
  else
    ([.errLine ("Error copying to clipboard: Unsupported operating system: " ++ env.system)],
      some 1)

/-- `read_file` from `submit.py`: open `filepath` and return its contents,
or print a diagnostic and `sys.exit(1)` on failure.  The pair holds the
emitted events and either the contents or the exit code. -/
def read_file (fs : FileSystem) (filepath : String) : List Event × Except Nat String :=
  match fs filepath with
  | .ok c => ([.openFile filepath], .ok c)
  | .notFound =>
      ([.openFile filepath,
        .errLine ("Error: File \x27" ++ filepath ++ "\x27 not found.")], .error 1)
  | .permissionDenied =>
      ([.openFile filepath,
        .errLine ("Error: Permission denied reading \x27" ++ filepath ++ "\x27.")], .error 1)
  | .otherError e =>
      ([.openFile filepath,
        .errLine ("Error reading file \x27" ++ filepath ++ "\x27: " ++ e)], .error 1)

/-- The parsed command line: the positional `file_path` and the
`-n`/`--new` flag. -/
structure Args where
  file_path : String
  new : Bool

/-- The prompt path computed in `main`:
`os.path.join(os.path.dirname(os.path.abspath(__file__)), "prompt.txt")`. -/
def resolve_prompt_path (env : Env) : String :=
  joinPath (dirname (abspath env.cwd env.scriptFile)) "prompt.txt"

/-- `main` from `submit.py`: read the target file, optionally read the
prompt file and prepend its contents, copy to the clipboard, and print the
confirmation line. -/
def main (env : Env) (fs : FileSystem) (args : Args) : RunResult :=
  match read_file fs args.file_path with
  | (ev1, .error c) => ⟨ev1, c⟩
  | (ev1, .ok file_content) =>
    let step2 : List Event × Except Nat String :=
      if args.new then
        match read_file fs (resolve_prompt_path env) with
        | (ev2, .error c) => (ev2, .error c)
        | (ev2, .ok prompt_content) => (ev2, .ok (prompt_content ++ file_content))
      else ([], .ok file_content)
    match step2 with
    | (ev2, .error c) => ⟨ev1 ++ ev2, c⟩
    | (ev2, .ok final_content) =>
      match copy_to_clipboard env final_content with
      | (ev3, some c) => ⟨ev1 ++ ev2 ++ ev3, c⟩
      | (ev3, none) =>
        let msg :=
          if args.new then
            "Copied \x27" ++ args.file_path ++ "\x27 with prompt to clipboard."
          else "Copied \x27" ++ args.file_path ++ "\x27 to clipboard."
        ⟨ev1 ++ ev2 ++ ev3 ++ [.outLine msg], 0⟩

/-- The texts piped to clipboard commands during a run, in order. -/
def clipboardWrites (r : RunResult) : List String :=
  r.events.filterMap (fun e => match e with
    | .runTool _ input => some input
    | _ => none)

/-- The stdout lines of a run, in order. -/
def stdoutOf (r : RunResult) : List String :=
  r.events.filterMap (fun e => match e with
    | .outLine s => some s
    | _ => none)

/-- The stderr lines of a run, in order. -/
def stderrOf (r : RunResult) : List String :=
  r.events.filterMap (fun e => match e with
    | .errLine s => some s
    | _ => none)

/-- The paths opened for reading during a run, in order. -/
def opensOf (r : RunResult) : List String :=
  r.events.filterMap (fun e => match e with
    | .openFile p => some p
    | _ => none)

/-- Modelled from the spec: the OS clipboard (external to the program) is a
buffer holding the most recently copied content; each clipboard command
overwrites it with the full text piped to it. -/
def clipUpd (c : String) (e : Event) : String :=
  match e with
  | .runTool _ input => input
  | _ => c

/-- The clipboard state after a run, folding the run's writes over an
initial clipboard state. -/
def clipboardAfter (clip : String) (r : RunResult) : String :=
  r.events.foldl clipUpd clip

/-- Whether an event writes to the clipboard. -/
def isWrite : Event → Bool
  | .runTool _ _ => true
  | _ => false

/-- Whether launching the command started a process. -/
def ToolStatus.isRuns : ToolStatus → Bool
  | .runs _ => true
  | _ => false

/-- The platform is supported and the clipboard command the program would
choose starts successfully. -/
def clipboardAvailable (env : Env) : Bool :=
  if env.system = "Darwin" then (env.tool "pbcopy").isRuns
  else if env.system = "Linux" then
    ((env.tool "xclip").isRuns ||
      (match env.tool "xclip" with
       | .missing => (env.tool "xsel").isRuns
       | _ => false))
  else if env.system = "Windows" then (env.tool "clip").isRuns
  else false

/-! Concrete fixtures used to instantiate the theorems below. -/

/-- A Linux environment where every external command starts and succeeds,
with the script installed at `/opt/tool/submit.py`. -/
def env0 : Env := ⟨"Linux", fun _ => .runs 0, "/home/u", "/opt/tool/submit.py"⟩

/-- A file system holding only the target file `f.txt` with contents T. -/
def fsTargetOnly : FileSystem :=
  fun p => if p = "f.txt" then .ok "T" else .notFound

/-- A file system holding the target file `f.txt` and the prompt file. -/
def fsWithPrompt : FileSystem :=
  fun p =>
    if p = "f.txt" then .ok "T"
    else if p = "/opt/tool/prompt.txt" then .ok "P"
    else .notFound

/-- A Linux environment where `xclip` starts but exits with status 2 and
every other command is missing. -/
def envXclipFails : Env :=
  ⟨"Linux", fun t => if t = "xclip" then .runs 2 else .missing, "/home/u",
    "/opt/tool/submit.py"⟩

/-- The same installation as `env0` run from a different working
directory. -/
def env0b : Env := ⟨"Linux", fun _ => .runs 0, "/tmp", "/opt/tool/submit.py"⟩

/-- An environment whose platform identifier is none of Darwin, Linux or
Windows. -/
def envOther : Env := ⟨"SunOS", fun _ => .runs 0, "/home/u", "/opt/tool/submit.py"⟩

/-! Helper lemmas. -/

/-- When the platform is supported and its clipboard command starts,
`copy_to_clipboard` pipes the text to exactly one command and returns. -/
lemma copy_ok (env : Env) (text : String) (hc : clipboardAvailable env = true) :
    ∃ cmd, copy_to_clipboard env text = ([.runTool cmd text], none) := by
  by_cases hd : env.system = "Darwin"
  · cases htool : env.tool "pbcopy" with
    | runs c => exact ⟨["pbcopy"], by simp [copy_to_clipboard, hd, htool]⟩
    | missing => simp [clipboardAvailable, hd, htool, ToolStatus.isRuns] at hc
    | raisesOther m => simp [clipboardAvailable, hd, htool, ToolStatus.isRuns] at hc
  · by_cases hl : env.system = "Linux"
    · cases hx : env.tool "xclip" with
      | runs c =>
          exact ⟨["xclip", "-selection", "clipboard"],
            by simp [copy_to_clipboard, hd, hl, hx]⟩
      | missing =>
          cases hs : env.tool "xsel" with
          | runs c =>
              exact ⟨["xsel", "--clipboard", "--input"],
                by simp [copy_to_clipboard, hd, hl, hx, hs]⟩
          | missing => simp [clipboardAvailable, hd, hl, hx, hs, ToolStatus.isRuns] at hc
          | raisesOther m => simp [clipboardAvailable, hd, hl, hx, hs, ToolStatus.isRuns] at hc
      | raisesOther m => simp [clipboardAvailable, hd, hl, hx, ToolStatus.isRuns] at hc
    · by_cases hw : env.system = "Windows"
      · cases ht : env.tool "clip" with
        | runs c => exact ⟨["clip"], by simp [copy_to_clipboard, hd, hl, hw, ht]⟩
        | missing => simp [clipboardAvailable, hd, hl, hw, ht, ToolStatus.isRuns] at hc
        | raisesOther m => simp [clipboardAvailable, hd, hl, hw, ht, ToolStatus.isRuns] at hc
      · simp [clipboardAvailable, hd, hl, hw] at hc

/-! Theorems about the claims. -/

/-- C1: with `--new`, when both the resolved prompt file and the target
file read successfully and the platform clipboard command is available, the
run pipes exactly `prompt ++ target` (no separator) to the clipboard and
exits 0. -/
theorem C1_new_concatenates (env : Env) (fs : FileSystem) (fp p f : String)
    (hp : fs (resolve_prompt_path env) = .ok p) (hf : fs fp = .ok f)
    (hc : clipboardAvailable env = true) :
    (main env fs ⟨fp, true⟩).exitCode = 0 ∧
    clipboardWrites (main env fs ⟨fp, true⟩) = [p ++ f] := by
  obtain ⟨cmd, hcmd⟩ := copy_ok env (p ++ f) hc
  simp [main, read_file, hf, hp, hcmd, clipboardWrites]

theorem C1_new_concatenates_witness :
    fsWithPrompt (resolve_prompt_path env0) = .ok "P" ∧
    fsWithPrompt "f.txt" = .ok "T" ∧
    clipboardAvailable env0 = true ∧
    ((main env0 fsWithPrompt ⟨"f.txt", true⟩).exitCode = 0 ∧
      clipboardWrites (main env0 fsWithPrompt ⟨"f.txt", true⟩) = ["P" ++ "T"]) :=
  ⟨by decide, by decide, by decide,
    C1_new_concatenates env0 fsWithPrompt "f.txt" "P" "T" (by decide) (by decide) (by decide)⟩

/-- C2: without `--new`, a readable target file is piped verbatim to the
clipboard, the run exits 0 and prints the plain confirmation line; with
`--new` and a readable prompt, the confirmation line mentions the prompt. -/
theorem C2_copy_and_confirm (env : Env) (fs : FileSystem) (fp f : String)
    (hf : fs fp = .ok f) (hc : clipboardAvailable env = true) :
    (main env fs ⟨fp, false⟩).exitCode = 0 ∧
    clipboardWrites (main env fs ⟨fp, false⟩) = [f] ∧
    stdoutOf (main env fs ⟨fp, false⟩) = ["Copied \x27" ++ fp ++ "\x27 to clipboard."] ∧
    (∀ p, fs (resolve_prompt_path env) = .ok p →
      stdoutOf (main env fs ⟨fp, true⟩) =
        ["Copied \x27" ++ fp ++ "\x27 with prompt to clipboard."]) := by
  obtain ⟨cmd, hcmd⟩ := copy_ok env f hc
  refine ⟨?_, ?_, ?_, ?_⟩
  · simp [main, read_file, hf, hcmd]
  · simp [main, read_file, hf, hcmd, clipboardWrites]
  · simp [main, read_file, hf, hcmd, stdoutOf]
  · intro p hp
    obtain ⟨cmd2, hcmd2⟩ := copy_ok env (p ++ f) hc
    simp [main, read_file, hf, hp, hcmd2, stdoutOf]

theorem C2_copy_and_confirm_witness :
    fsWithPrompt "f.txt" = .ok "T" ∧
    clipboardAvailable env0 = true ∧
    ((main env0 fsWithPrompt ⟨"f.txt", false⟩).exitCode = 0 ∧
      clipboardWrites (main env0 fsWithPrompt ⟨"f.txt", false⟩) = ["T"] ∧
      stdoutOf (main env0 fsWithPrompt ⟨"f.txt", false⟩) =
        ["Copied \x27" ++ "f.txt" ++ "\x27 to clipboard."] ∧
      (∀ p, fsWithPrompt (resolve_prompt_path env0) = .ok p →
        stdoutOf (main env0 fsWithPrompt ⟨"f.txt", true⟩) =
          ["Copied \x27" ++ "f.txt" ++ "\x27 with prompt to clipboard."])) :=
  ⟨by decide, by decide,
    C2_copy_and_confirm env0 fsWithPrompt "f.txt" "T" (by decide) (by decide)⟩

/-- C3: when any of the file reads fails (target file, or prompt file under
`--new`), the run exits 1, prints a diagnostic on stderr, and never pipes
anything to a clipboard command. -/
theorem C3_no_clipboard_on_read_failure (env : Env) (fs : FileSystem) (args : Args)
    (h : (∀ c, fs args.file_path ≠ .ok c) ∨
      (args.new = true ∧ ∀ c, fs (resolve_prompt_path env) ≠ .ok c)) :
    (main env fs args).exitCode = 1 ∧
    stderrOf (main env fs args) ≠ [] ∧
    clipboardWrites (main env fs args) = [] := by
  rcases h with h | ⟨hnew, h⟩
  · cases hr : fs args.file_path with
    | ok c => exact absurd hr (h c)
    | notFound => simp [main, read_file, hr, stderrOf, clipboardWrites]
    | permissionDenied => simp [main, read_file, hr, stderrOf, clipboardWrites]
    | otherError m => simp [main, read_file, hr, stderrOf, clipboardWrites]
  · cases hr : fs args.file_path with
    | ok c =>
        cases hp : fs (resolve_prompt_path env) with
        | ok c2 => exact absurd hp (h c2)
        | notFound => simp [main, read_file, hr, hp, hnew, stderrOf, clipboardWrites]
        | permissionDenied => simp [main, read_file, hr, hp, hnew, stderrOf, clipboardWrites]
        | otherError m => simp [main, read_file, hr, hp, hnew, stderrOf, clipboardWrites]
    | notFound => simp [main, read_file, hr, stderrOf, clipboardWrites]
    | permissionDenied => simp [main, read_file, hr, stderrOf, clipboardWrites]
    | otherError m => simp [main, read_file, hr, stderrOf, clipboardWrites]

theorem C3_no_clipboard_on_read_failure_witness :
    (∀ c, fsTargetOnly "missing.txt" ≠ ReadResult.ok c) ∧
    ((main env0 fsTargetOnly ⟨"missing.txt", false⟩).exitCode = 1 ∧
      stderrOf (main env0 fsTargetOnly ⟨"missing.txt", false⟩) ≠ [] ∧
      clipboardWrites (main env0 fsTargetOnly ⟨"missing.txt", false⟩) = []) := by
  have hne : ∀ c, fsTargetOnly "missing.txt" ≠ ReadResult.ok c := by
    intro c h
    have : fsTargetOnly "missing.txt" = ReadResult.notFound := by decide
    rw [this] at h
    exact ReadResult.noConfusion h
  exact ⟨hne, C3_no_clipboard_on_read_failure env0 fsTargetOnly ⟨"missing.txt", false⟩ (Or.inl hne)⟩

/-- C4 (counterexample): with `--new` and `prompt.txt` missing, the program
does read the target file before exiting 1 — the target file is opened
first and the prompt file second, so neither does the exit happen before
the target read, nor is the prompt read first as the claim states. -/
theorem C4_counterexample :
    (main env0 fsTargetOnly ⟨"f.txt", true⟩).exitCode = 1 ∧
    opensOf (main env0 fsTargetOnly ⟨"f.txt", true⟩) = ["f.txt", "/opt/tool/prompt.txt"] ∧
    ¬ (Event.openFile "f.txt" ∉ (main env0 fsTargetOnly ⟨"f.txt", true⟩).events) := by
  refine ⟨by decide, by decide, ?_⟩
  intro h
  exact h (by decide)

/-- C4 (amended): with `--new`, a readable target file and an unreadable
prompt file, the run exits 1 and writes nothing to the clipboard, but the
target file is read first and the prompt file second — the exit happens
after the target file's content has already been read. -/
theorem C4_amended_read_order (env : Env) (fs : FileSystem) (fp f : String)
    (hf : fs fp = .ok f)
    (hp : ∀ c, fs (resolve_prompt_path env) ≠ .ok c) :
    (main env fs ⟨fp, true⟩).exitCode = 1 ∧
    clipboardWrites (main env fs ⟨fp, true⟩) = [] ∧
    opensOf (main env fs ⟨fp, true⟩) = [fp, resolve_prompt_path env] := by
  cases hpr : fs (resolve_prompt_path env) with
  | ok c => exact absurd hpr (hp c)
  | notFound => simp [main, read_file, hf, hpr, clipboardWrites, opensOf]
  | permissionDenied => simp [main, read_file, hf, hpr, clipboardWrites, opensOf]
  | otherError m => simp [main, read_file, hf, hpr, clipboardWrites, opensOf]

theorem C4_amended_read_order_witness :
    fsTargetOnly "f.txt" = ReadResult.ok "T" ∧
    (∀ c, fsTargetOnly (resolve_prompt_path env0) ≠ ReadResult.ok c) ∧
    ((main env0 fsTargetOnly ⟨"f.txt", true⟩).exitCode = 1 ∧
      clipboardWrites (main env0 fsTargetOnly ⟨"f.txt", true⟩) = [] ∧
      opensOf (main env0 fsTargetOnly ⟨"f.txt", true⟩) = ["f.txt", resolve_prompt_path env0]) := by
  have hne : ∀ c, fsTargetOnly (resolve_prompt_path env0) ≠ ReadResult.ok c := by
    intro c h
    have : fsTargetOnly (resolve_prompt_path env0) = ReadResult.notFound := by decide
    rw [this] at h
    exact ReadResult.noConfusion h
  exact ⟨by decide, hne, C4_amended_read_order env0 fsTargetOnly "f.txt" "T" (by decide) hne⟩

/-- C5 (counterexample): on Linux with `xclip` present but exiting with
status 2, the run still exits 0, prints no diagnostic, and prints the
success message — the claimed exit-1-with-diagnostic behaviour does not
happen. -/
theorem C5_counterexample :
    (main envXclipFails fsTargetOnly ⟨"f.txt", false⟩).exitCode = 0 ∧
    stderrOf (main envXclipFails fsTargetOnly ⟨"f.txt", false⟩) = [] ∧
    stdoutOf (main envXclipFails fsTargetOnly ⟨"f.txt", false⟩) =
      ["Copied \x27f.txt\x27 to clipboard."] := by
  decide

/-- C5 (amended): the program never inspects the clipboard command's exit
status.  On every supported platform, whichever of `pbcopy`, `xclip`, the
`xsel` fallback or `clip` the program chooses, once that command starts the
run prints no diagnostic, prints the success message for the given flag,
and exits 0 — whatever status `code` the tool exits with. -/
theorem C5_amended_tool_status_ignored (env : Env) (fs : FileSystem) (args : Args)
    (code : Nat)
    (hchosen :
      (env.system = "Darwin" ∧ env.tool "pbcopy" = .runs code) ∨
      (env.system = "Linux" ∧ env.tool "xclip" = .runs code) ∨
      (env.system = "Linux" ∧ env.tool "xclip" = .missing ∧
        env.tool "xsel" = .runs code) ∨
      (env.system = "Windows" ∧ env.tool "clip" = .runs code))
    (hf : ∃ c, fs args.file_path = .ok c)
    (hp : args.new = true → ∃ c, fs (resolve_prompt_path env) = .ok c) :
    (main env fs args).exitCode = 0 ∧
    stderrOf (main env fs args) = [] ∧
    stdoutOf (main env fs args) =
      [if args.new then "Copied \x27" ++ args.file_path ++ "\x27 with prompt to clipboard."
       else "Copied \x27" ++ args.file_path ++ "\x27 to clipboard."] := by
  have hc : clipboardAvailable env = true := by
    rcases hchosen with ⟨h1, h2⟩ | ⟨h1, h2⟩ | ⟨h1, h2, h3⟩ | ⟨h1, h2⟩
    · simp [clipboardAvailable, h1, h2, ToolStatus.isRuns]
    · simp [clipboardAvailable, h1, h2, ToolStatus.isRuns]
    · simp [clipboardAvailable, h1, h2, h3, ToolStatus.isRuns]
    · simp [clipboardAvailable, h1, h2, ToolStatus.isRuns]
  obtain ⟨f, hfv⟩ := hf
  cases hnew : args.new with
  | false =>
      obtain ⟨cmd, hcmd⟩ := copy_ok env f hc
      simp [main, read_file, hfv, hnew, hcmd, stderrOf, stdoutOf]
  | true =>
      obtain ⟨p, hpv⟩ := hp hnew
      obtain ⟨cmd, hcmd⟩ := copy_ok env (p ++ f) hc
      simp [main, read_file, hfv, hpv, hnew, hcmd, stderrOf, stdoutOf]

theorem C5_amended_tool_status_ignored_witness :
    ((envXclipFails.system = "Darwin" ∧ envXclipFails.tool "pbcopy" = ToolStatus.runs 2) ∨
      (envXclipFails.system = "Linux" ∧ envXclipFails.tool "xclip" = ToolStatus.runs 2) ∨
      (envXclipFails.system = "Linux" ∧ envXclipFails.tool "xclip" = ToolStatus.missing ∧
        envXclipFails.tool "xsel" = ToolStatus.runs 2) ∨
      (envXclipFails.system = "Windows" ∧ envXclipFails.tool "clip" = ToolStatus.runs 2)) ∧
    (∃ c, fsTargetOnly (Args.mk "f.txt" false).file_path = ReadResult.ok c) ∧
    ((Args.mk "f.txt" false).new = true →
      ∃ c, fsTargetOnly (resolve_prompt_path envXclipFails) = ReadResult.ok c) ∧
    ((main envXclipFails fsTargetOnly (Args.mk "f.txt" false)).exitCode = 0 ∧
      stderrOf (main envXclipFails fsTargetOnly (Args.mk "f.txt" false)) = [] ∧
      stdoutOf (main envXclipFails fsTargetOnly (Args.mk "f.txt" false)) =
        [if (Args.mk "f.txt" false).new then
          "Copied \x27" ++ (Args.mk "f.txt" false).file_path ++ "\x27 with prompt to clipboard."
         else "Copied \x27" ++ (Args.mk "f.txt" false).file_path ++ "\x27 to clipboard."]) :=
  ⟨Or.inr (Or.inl ⟨by decide, by decide⟩), ⟨"T", by decide⟩,
    fun h => Bool.noConfusion h,
    C5_amended_tool_status_ignored envXclipFails fsTargetOnly (Args.mk "f.txt" false) 2
      (Or.inr (Or.inl ⟨by decide, by decide⟩)) ⟨"T", by decide⟩
      (fun h => Bool.noConfusion h)⟩

/-- C6: on Linux, when `xclip` starts the text is piped to
`xclip -selection clipboard` and no other tool is tried; exactly when
`xclip` is not found, the same text is piped to `xsel --clipboard --input`;
when both are missing no further tool is tried and the function prints a
diagnostic and exits 1; when `xclip` fails for a reason other than being
missing there is no fallback. -/
theorem C6_linux_fallback (env : Env) (text : String) (hl : env.system = "Linux") :
    (∀ c, env.tool "xclip" = .runs c →
      copy_to_clipboard env text =
        ([.runTool ["xclip", "-selection", "clipboard"] text], none)) ∧
    (env.tool "xclip" = .missing → ∀ c, env.tool "xsel" = .runs c →
      copy_to_clipboard env text =
        ([.runTool ["xsel", "--clipboard", "--input"] text], none)) ∧
    (env.tool "xclip" = .missing → env.tool "xsel" = .missing →
      copy_to_clipboard env text =
        ([.errLine ("Error: Required clipboard utility not found. " ++ fnfDetail "xsel")],
          some 1)) ∧
    (∀ m, env.tool "xclip" = .raisesOther m →
      copy_to_clipboard env text =
        ([.errLine ("Error copying to clipboard: " ++ m)], some 1)) := by
  refine ⟨?_, ?_, ?_, ?_⟩
  · intro c hx
    simp [copy_to_clipboard, hl, hx]
  · intro hx c hs
    simp [copy_to_clipboard, hl, hx, hs]
  · intro hx hs
    simp [copy_to_clipboard, hl, hx, hs]
  · intro m hx
    simp [copy_to_clipboard, hl, hx]

theorem C6_linux_fallback_witness :
    env0.system = "Linux" ∧
    ((∀ c, env0.tool "xclip" = ToolStatus.runs c →
      copy_to_clipboard env0 "T" =
        ([Event.runTool ["xclip", "-selection", "clipboard"] "T"], none)) ∧
    (env0.tool "xclip" = ToolStatus.missing → ∀ c, env0.tool "xsel" = ToolStatus.runs c →
      copy_to_clipboard env0 "T" =
        ([Event.runTool ["xsel", "--clipboard", "--input"] "T"], none)) ∧
    (env0.tool "xclip" = ToolStatus.missing → env0.tool "xsel" = ToolStatus.missing →
      copy_to_clipboard env0 "T" =
        ([Event.errLine ("Error: Required clipboard utility not found. " ++ fnfDetail "xsel")],
          some 1)) ∧
    (∀ m, env0.tool "xclip" = ToolStatus.raisesOther m →
      copy_to_clipboard env0 "T" =
        ([Event.errLine ("Error copying to clipboard: " ++ m)], some 1))) :=
  ⟨by decide, C6_linux_fallback env0 "T" (by decide)⟩

/-- C7: on any platform identifier other than Darwin, Linux or Windows,
whatever the readable input files contain, the run exits 1 and its only
stderr line is the unsupported-operating-system diagnostic. -/
theorem C7_unsupported_platform (env : Env) (fs : FileSystem) (args : Args)
    (h1 : env.system ≠ "Darwin") (h2 : env.system ≠ "Linux") (h3 : env.system ≠ "Windows")
    (hf : ∃ c, fs args.file_path = .ok c)
    (hp : args.new = true → ∃ c, fs (resolve_prompt_path env) = .ok c) :
    (main env fs args).exitCode = 1 ∧
    stderrOf (main env fs args) =
      ["Error copying to clipboard: Unsupported operating system: " ++ env.system] := by
  obtain ⟨f, hfv⟩ := hf
  cases hnew : args.new with
  | false => simp [main, read_file, hfv, hnew, copy_to_clipboard, h1, h2, h3, stderrOf]
  | true =>
      obtain ⟨p, hpv⟩ := hp hnew
      simp [main, read_file, hfv, hpv, hnew, copy_to_clipboard, h1, h2, h3, stderrOf]

theorem C7_unsupported_platform_witness :
    envOther.system ≠ "Darwin" ∧ envOther.system ≠ "Linux" ∧ envOther.system ≠ "Windows" ∧
    (∃ c, fsTargetOnly (Args.mk "f.txt" false).file_path = ReadResult.ok c) ∧
    ((Args.mk "f.txt" false).new = true →
      ∃ c, fsTargetOnly (resolve_prompt_path envOther) = ReadResult.ok c) ∧
    ((main envOther fsTargetOnly (Args.mk "f.txt" false)).exitCode = 1 ∧
      stderrOf (main envOther fsTargetOnly (Args.mk "f.txt" false)) =
        ["Error copying to clipboard: Unsupported operating system: " ++ envOther.system]) :=
  ⟨by decide, by decide, by decide, ⟨"T", by decide⟩,
    fun h => Bool.noConfusion h,
    C7_unsupported_platform envOther fsTargetOnly (Args.mk "f.txt" false)
      (by decide) (by decide) (by decide) ⟨"T", by decide⟩ (fun h => Bool.noConfusion h)⟩

/-- Folding the clipboard update over events with no write leaves the
clipboard unchanged. -/
lemma foldl_clipUpd_no_write (evs : List Event) (c : String)
    (h : ∀ e ∈ evs, isWrite e = false) : evs.foldl clipUpd c = c := by
  induction evs generalizing c with
  | nil => rfl
  | cons e rest ih =>
    have he : isWrite e = false := h e (List.mem_cons_self e rest)
    have hupd : clipUpd c e = c := by
      cases e with
      | runTool cmd input => simp [isWrite] at he
      | openFile p => rfl
      | outLine s => rfl
      | errLine s => rfl
    rw [List.foldl_cons, hupd]
    exact ih c (fun x hx => h x (List.mem_cons_of_mem e hx))

/-- Folding the clipboard update over events containing a write yields a
result independent of the initial clipboard. -/
lemma foldl_clipUpd_write (evs : List Event) (h : ∃ e ∈ evs, isWrite e = true) :
    ∀ c₁ c₂, evs.foldl clipUpd c₁ = evs.foldl clipUpd c₂ := by
  induction evs with
  | nil => simp at h
  | cons e rest ih =>
    intro c₁ c₂
    by_cases hr : ∃ x ∈ rest, isWrite x = true
    · rw [List.foldl_cons, List.foldl_cons]
      exact ih hr (clipUpd c₁ e) (clipUpd c₂ e)
    · have he : isWrite e = true := by
        rcases h with ⟨x, hx, hw⟩
        rcases List.mem_cons.mp hx with h1 | h2
        · rwa [h1] at hw
        · exact absurd ⟨x, h2, hw⟩ hr
      cases e with
      | runTool cmd input => simp [List.foldl_cons, clipUpd]
      | openFile p => simp [isWrite] at he
      | outLine s => simp [isWrite] at he
      | errLine s => simp [isWrite] at he

/-- A run either never touches the clipboard or overwrites it with a value
that does not depend on the previous clipboard state, so replaying the same
run is a no-op. -/
lemma clipboardAfter_overwrite (r : RunResult) (clip : String) :
    clipboardAfter (clipboardAfter clip r) r = clipboardAfter clip r := by
  by_cases h : ∃ e ∈ r.events, isWrite e = true
  · exact foldl_clipUpd_write r.events h _ clip
  · push_neg at h
    simp only [Bool.not_eq_true] at h
    exact foldl_clipUpd_no_write r.events _ h

/-- C8: running the program twice with the same environment, file system
and arguments leaves the clipboard exactly as one run does — each run
overwrites the clipboard rather than appending to it. -/
theorem C8_second_run_idempotent (env : Env) (fs : FileSystem) (args : Args)
    (clip : String) :
    clipboardAfter (clipboardAfter clip (main env fs args)) (main env fs args) =
      clipboardAfter clip (main env fs args) :=
  clipboardAfter_overwrite (main env fs args) clip

/-- C9: with an absolute script path, the resolved prompt path is the
script's directory joined with `prompt.txt`, and two environments sharing
the script path resolve the same prompt path whatever their working
directories are. -/
theorem C9_prompt_path_cwd_independent (env env2 : Env)
    (hs : env2.scriptFile = env.scriptFile)
    (habs : isabs env.scriptFile = true) :
    resolve_prompt_path env = joinPath (dirname (normpath env.scriptFile)) "prompt.txt" ∧
    resolve_prompt_path env2 = resolve_prompt_path env := by
  constructor
  · simp [resolve_prompt_path, abspath, habs]
  · simp [resolve_prompt_path, abspath, habs, hs]

theorem C9_prompt_path_cwd_independent_witness :
    env0b.scriptFile = env0.scriptFile ∧
    isabs env0.scriptFile = true ∧
    (resolve_prompt_path env0 = joinPath (dirname (normpath env0.scriptFile)) "prompt.txt" ∧
      resolve_prompt_path env0b = resolve_prompt_path env0) :=
  ⟨by decide, by decide,
    C9_prompt_path_cwd_independent env0 env0b (by decide) (by decide)⟩

/-- C10: without `--new`, the run depends on the file system only through
the target path: two file systems agreeing on the target path — in
particular one with and one without a `prompt.txt`, of any contents —
produce identical events (clipboard writes, stdout, stderr, opens) and exit
code. -/
theorem C10_prompt_unread_without_new (env : Env) (fs1 fs2 : FileSystem)
    (fp : String) (h : fs1 fp = fs2 fp) :
    main env fs1 ⟨fp, false⟩ = main env fs2 ⟨fp, false⟩ := by
  cases h2 : fs2 fp with
  | ok c => rw [h2] at h; simp [main, read_file, h, h2]
  | notFound => rw [h2] at h; simp [main, read_file, h, h2]
  | permissionDenied => rw [h2] at h; simp [main, read_file, h, h2]
  | otherError m => rw [h2] at h; simp [main, read_file, h, h2]

theorem C10_prompt_unread_without_new_witness :
    fsWithPrompt "f.txt" = fsTargetOnly "f.txt" ∧
    main env0 fsWithPrompt ⟨"f.txt", false⟩ = main env0 fsTargetOnly ⟨"f.txt", false⟩ :=
  ⟨by decide, C10_prompt_unread_without_new env0 fsWithPrompt fsTargetOnly "f.txt" (by decide)⟩

end Submit
